import Mathlib

/-!
Verification of the ProjectJetson light-bar coordination layer.

The Python sources are embedded shallowly: pure arithmetic is modelled over
`ℚ` (exact rationals in place of IEEE floats), the fade easing (which uses a
real sine) over `ℝ`, and each stateful object as a structure with explicit
state-passing update functions.  Python's `int()` truncation and negative list
indexing are modelled explicitly where the source uses them.
-/

/-- Truncation toward zero, the behaviour of Python's `int()` on a float. -/
def pyInt (q : ℚ) : ℤ :=
  if 0 ≤ q then ⌊q⌋ else ⌈q⌉

/-- Python list indexing on strings: non-negative indexes from the front,
negative indexes from the back (out of range gives a default). -/
def pyIndex (l : List String) (i : ℤ) : String :=
  if 0 ≤ i then l.getD i.toNat "" else l.getD (l.length - (-i).toNat) ""

/-- Embedding of `calculate_randomness` from `lightbar/core/randomness.py`:
weighted CPU/RAM load plus a temperature bonus (70→85 °C ramp, divisor 15),
clamped to `[1, 5]`. -/
def calculate_randomness (cpu_percent ram_percent temperature : ℚ) : ℚ :=
  let cpu_normalized := min (cpu_percent / 100) 1
  let ram_normalized := min (ram_percent / 100) 1
  let base_load := cpu_normalized * 0.6 + ram_normalized * 0.4
  let temp_bonus := if temperature > 70 then min ((temperature - 70) / 15) 1 else 0
  let randomness := 1 + base_load * 3 + temp_bonus
  max 1 (min 5 randomness)

/-- Embedding of the method `LightBarController.calculate_randomness` from
`lightbar/core/lightbar_controller.py` (the controller's own copy of the
formula; note the temperature divisor 20 and the missing lower clamp). -/
def LightBarController.calculate_randomness (cpu ram temp : ℚ) : ℚ :=
  let base_randomness := 1 + ((cpu * 0.6 + ram * 0.4) / 100) * 3
  let with_bonus :=
    if temp > 70 then base_randomness + min 1 ((temp - 70) / 20) else base_randomness
  min 5 with_bonus

theorem calculate_randomness_mono_cpu (cpu cpu2 ram temp : ℚ) (h : cpu ≤ cpu2) :
    calculate_randomness cpu ram temp ≤ calculate_randomness cpu2 ram temp := by
  unfold calculate_randomness
  have hm : min (cpu / 100) 1 ≤ min (cpu2 / 100) 1 := by
    apply min_le_min _ le_rfl
    exact div_le_div_of_nonneg_right h (by norm_num) |>.trans_eq rfl
  apply max_le_max le_rfl
  apply min_le_min le_rfl
  have : min (cpu / 100) 1 * 0.6 ≤ min (cpu2 / 100) 1 * 0.6 := by
    apply mul_le_mul_of_nonneg_right hm (by norm_num)
  nlinarith [this]

theorem calculate_randomness_mono_ram (cpu ram ram2 temp : ℚ) (h : ram ≤ ram2) :
    calculate_randomness cpu ram temp ≤ calculate_randomness cpu ram2 temp := by
  unfold calculate_randomness
  have hm : min (ram / 100) 1 ≤ min (ram2 / 100) 1 := by
    apply min_le_min _ le_rfl
    exact div_le_div_of_nonneg_right h (by norm_num) |>.trans_eq rfl
  apply max_le_max le_rfl
  apply min_le_min le_rfl
  have : min (ram / 100) 1 * 0.4 ≤ min (ram2 / 100) 1 * 0.4 := by
    apply mul_le_mul_of_nonneg_right hm (by norm_num)
  nlinarith [this]

theorem calculate_randomness_range (cpu ram temp : ℚ) :
    1 ≤ calculate_randomness cpu ram temp ∧ calculate_randomness cpu ram temp ≤ 5 := by
  unfold calculate_randomness
  constructor
  · exact le_max_left _ _
  · exact max_le (by norm_num) (min_le_left _ _)

/-- Claim C1: for every cpu, ram in `[0,100]` and temp in `[-40,150]`,
`calculate_randomness` returns a value in `[1,5]`, and the result is
monotonically non-decreasing in cpu (ram, temp fixed) and in ram
(cpu, temp fixed). -/
theorem c1_randomness_range_and_monotone
    (cpu cpu2 ram ram2 temp : ℚ)
    (hc0 : 0 ≤ cpu) (hc1 : cpu ≤ 100) (hc2 : cpu ≤ cpu2) (hc3 : cpu2 ≤ 100)
    (hr0 : 0 ≤ ram) (hr1 : ram ≤ 100) (hr2 : ram ≤ ram2) (hr3 : ram2 ≤ 100)
    (ht0 : -40 ≤ temp) (ht1 : temp ≤ 150) :
    (1 ≤ calculate_randomness cpu ram temp ∧ calculate_randomness cpu ram temp ≤ 5) ∧
    calculate_randomness cpu ram temp ≤ calculate_randomness cpu2 ram temp ∧
    calculate_randomness cpu ram temp ≤ calculate_randomness cpu ram2 temp := by
  refine ⟨calculate_randomness_range cpu ram temp, ?_, ?_⟩
  · exact calculate_randomness_mono_cpu cpu cpu2 ram temp hc2
  · exact calculate_randomness_mono_ram cpu ram ram2 temp hr2

theorem c1_witness :
    (1 ≤ calculate_randomness 10 30 75 ∧ calculate_randomness 10 30 75 ≤ 5) ∧
    calculate_randomness 10 30 75 ≤ calculate_randomness 20 30 75 ∧
    calculate_randomness 10 30 75 ≤ calculate_randomness 10 40 75 :=
  c1_randomness_range_and_monotone 10 20 30 40 75
    (by norm_num) (by norm_num) (by norm_num) (by norm_num)
    (by norm_num) (by norm_num) (by norm_num) (by norm_num)
    (by norm_num) (by norm_num)

/-- Claim C4, counterexample: at cpu=95, ram=90, temp=90 neither randomness
computation reaches the upper clamp 5.0 — both return 4.79. -/
theorem c4_counterexample :
    calculate_randomness 95 90 90 ≠ 5 ∧
    LightBarController.calculate_randomness 95 90 90 ≠ 5 := by
  constructor <;> norm_num [calculate_randomness, LightBarController.calculate_randomness]

/-- Claim C4 (amended): for cpu=95, ram=90, temp=90 the randomness computation
returns exactly 4.79, strictly below the 5.0 upper bound, so the clamp is not
hit (both the pure function and the controller's method agree there). -/
theorem c4_randomness_at_95_90_90 :
    calculate_randomness 95 90 90 = 479/100 ∧
    LightBarController.calculate_randomness 95 90 90 = 479/100 ∧
    (479/100 : ℚ) < 5 := by
  refine ⟨?_, ?_, by norm_num⟩ <;>
    norm_num [calculate_randomness, LightBarController.calculate_randomness]

/-- A time of day as compared by Python's `datetime.time`: lexicographic on
(hour, minute, second). -/
structure Time where
  hour : ℕ
  minute : ℕ
  second : ℕ
deriving DecidableEq, Repr

/-- Strict comparison of `datetime.time` values (lexicographic). -/
def Time.ltb (a b : Time) : Bool :=
  decide (a.hour < b.hour) ||
    (decide (a.hour = b.hour) &&
      (decide (a.minute < b.minute) ||
        (decide (a.minute = b.minute) && decide (a.second < b.second))))

/-- Non-strict comparison of `datetime.time` values. -/
def Time.leb (a b : Time) : Bool :=
  Time.ltb a b || decide (a = b)

/-- Embedding of `Scheduler.is_within_schedule` from `lightbar/core/scheduler.py`:
a non-wrapping window `start ≤ end` means `start ≤ t < end`; a wrapping window
(crossing midnight) means `t ≥ start or t < end`. -/
def Scheduler.is_within_schedule (start_time end_time current_time : Time) : Bool :=
  if Time.leb start_time end_time then
    Time.leb start_time current_time && Time.ltb current_time end_time
  else
    Time.leb start_time current_time || Time.ltb current_time end_time

/-- Claim C6: `is_within_schedule` is, for every time of day, the predicate
`start ≤ t < end` on a non-wrapping window and `t ≥ start or t < end` on a
wrapping window, with the spec's eight example evaluations on the windows
07:00–20:00 and 20:00–07:00. -/
theorem c6_is_within_schedule_correct (s e t : Time) :
    (Time.leb s e = true →
      (Scheduler.is_within_schedule s e t = true ↔
        (Time.leb s t = true ∧ Time.ltb t e = true))) ∧
    (Time.leb s e = false →
      (Scheduler.is_within_schedule s e t = true ↔
        (Time.leb s t = true ∨ Time.ltb t e = true))) ∧
    (Scheduler.is_within_schedule ⟨7,0,0⟩ ⟨20,0,0⟩ ⟨6,59,0⟩ = false ∧
     Scheduler.is_within_schedule ⟨7,0,0⟩ ⟨20,0,0⟩ ⟨7,0,0⟩ = true ∧
     Scheduler.is_within_schedule ⟨7,0,0⟩ ⟨20,0,0⟩ ⟨19,59,0⟩ = true ∧
     Scheduler.is_within_schedule ⟨7,0,0⟩ ⟨20,0,0⟩ ⟨20,0,0⟩ = false) ∧
    (Scheduler.is_within_schedule ⟨20,0,0⟩ ⟨7,0,0⟩ ⟨23,0,0⟩ = true ∧
     Scheduler.is_within_schedule ⟨20,0,0⟩ ⟨7,0,0⟩ ⟨3,0,0⟩ = true ∧
     Scheduler.is_within_schedule ⟨20,0,0⟩ ⟨7,0,0⟩ ⟨10,0,0⟩ = false) := by
  refine ⟨?_, ?_, by decide, by decide⟩
  · intro h
    simp [Scheduler.is_within_schedule, h]
  · intro h
    simp [Scheduler.is_within_schedule, h]

theorem c6_witness :
    Scheduler.is_within_schedule ⟨7,0,0⟩ ⟨20,0,0⟩ ⟨7,0,0⟩ = true :=
  ((c6_is_within_schedule_correct ⟨7,0,0⟩ ⟨20,0,0⟩ ⟨7,0,0⟩).1 (by decide)).mpr
    ⟨by decide, by decide⟩

/-- The default `available_effects` list of the controller configuration. -/
def available_effects : List String :=
  ["system_pulse", "load_rainbow", "random_sparkle", "thermal_gradient", "load_bars"]

/-- The fixed effect list walked by demo mode (`self.demo_mode_effects`). -/
def demo_mode_effects : List String :=
  ["system_pulse", "load_rainbow", "random_sparkle", "thermal_gradient", "load_bars"]

/-- Total demo duration in seconds (`self.demo_mode_duration`). -/
def demo_mode_duration : ℚ := 30

/-- The controller state touched by effect selection, brightness, demo mode
and the web-control channel (`LightBarController` in
`lightbar/core/lightbar_controller.py`). -/
structure LightBarController where
  current_effect_name : String
  has_effect : Bool
  brightness_multiplier : ℚ
  demo_mode_active : Bool
  demo_mode_start_time : ℚ
  demo_mode_previous_effect : Option String
deriving DecidableEq, Repr

/-- Embedding of `LightBarController.set_effect`: reject names outside
`available_effects`, otherwise record the name and instantiate the effect. -/
def LightBarController.set_effect (st : LightBarController) (effect_name : String) :
    LightBarController :=
  if available_effects.contains effect_name then
    { st with current_effect_name := effect_name, has_effect := true }
  else
    st

/-- Embedding of `LightBarController.start_demo_mode`: a no-op if already
active; otherwise record the start time and previous effect and switch to the
first demo effect.  The boolean is the method's return value. -/
def LightBarController.start_demo_mode (st : LightBarController) (now : ℚ) :
    LightBarController × Bool :=
  if st.demo_mode_active then
    (st, false)
  else
    let st1 := { st with
      demo_mode_active := true
      demo_mode_start_time := now
      demo_mode_previous_effect := some st.current_effect_name }
    (st1.set_effect (demo_mode_effects.getD 0 ""), true)

/-- Embedding of `LightBarController.end_demo_mode`: deactivate, restore the
previous effect when one was recorded, and clear the record. -/
def LightBarController.end_demo_mode (st : LightBarController) : LightBarController :=
  let st1 := { st with demo_mode_active := false }
  let st2 := match st1.demo_mode_previous_effect with
    | some prev => st1.set_effect prev
    | none => st1
  { st2 with demo_mode_previous_effect := none }

/-- Embedding of `LightBarController.update_demo_mode`: end the demo once the
total duration has elapsed, otherwise switch to the effect of the current
6-second slice (Python `int()` truncation and list indexing modelled by
`pyInt` and `pyIndex`). -/
def LightBarController.update_demo_mode (st : LightBarController) (now : ℚ) :
    LightBarController :=
  if !st.demo_mode_active then st
  else
    let elapsed := now - st.demo_mode_start_time
    if elapsed ≥ demo_mode_duration then st.end_demo_mode
    else
      let effect_duration := demo_mode_duration / (demo_mode_effects.length : ℚ)
      let effect_index := pyInt (elapsed / effect_duration)
      let effect_index := min effect_index ((demo_mode_effects.length : ℤ) - 1)
      let target_effect := pyIndex demo_mode_effects effect_index
      if target_effect ≠ st.current_effect_name then st.set_effect target_effect else st

/-- Embedding of `LightBarController.calculate_randomness_override`: `None`
outside demo mode, otherwise a linear 1→5 ramp over the demo duration capped
at 5. -/
def LightBarController.calculate_randomness_override (st : LightBarController) (now : ℚ) :
    Option ℚ :=
  if !st.demo_mode_active then none
  else
    let progress := (now - st.demo_mode_start_time) / demo_mode_duration
    some (min 5 (1 + progress * 4))

/-- The randomness value `LightBarController.update_effect` passes to the
active effect's update: none when there is no effect or brightness is ≤ 0,
otherwise the controller's own live `calculate_randomness` of the current
metrics (the demo override is never consulted there). -/
def LightBarController.update_effect_randomness (st : LightBarController)
    (cpu ram temp : ℚ) : Option ℚ :=
  if !st.has_effect then none
  else if st.brightness_multiplier ≤ 0 then none
  else some (LightBarController.calculate_randomness cpu ram temp)

/-- A control document as consumed by `check_control_commands` (after the
reader's `.get` defaults). -/
structure Control where
  enabled : Bool
  effect : String
  brightness : ℚ
  demo_mode : Bool
deriving DecidableEq, Repr

/-- Embedding of `LightBarController.check_control_commands`: on
`enabled=false`, zero the brightness and issue `turn_off` only when brightness
was positive; otherwise apply effect and (when not fading) brightness changes;
finally a pending demo flag starts demo mode.  The boolean records whether
`turn_off` was issued this tick; `fading` is `fade_controller.is_fading()`. -/
def LightBarController.check_control_commands (st : LightBarController)
    (fading : Bool) (control : Control) (now : ℚ) : LightBarController × Bool :=
  let step1 :=
    if !control.enabled then
      if st.brightness_multiplier > 0 then
        ({ st with brightness_multiplier := 0 }, true)
      else
        (st, false)
    else
      let st_e :=
        if control.effect != st.current_effect_name &&
            available_effects.contains control.effect then
          st.set_effect control.effect
        else st
      let st_b :=
        if !fading then
          let new_brightness := control.brightness / 100
          if |new_brightness - st_e.brightness_multiplier| > 0.01 then
            { st_e with brightness_multiplier := new_brightness }
          else st_e
        else st_e
      (st_b, false)
  let st2 := if control.demo_mode then (step1.1.start_demo_mode now).1 else step1.1
  (st2, step1.2)

theorem set_effect_brightness (st : LightBarController) (n : String) :
    (st.set_effect n).brightness_multiplier = st.brightness_multiplier := by
  unfold LightBarController.set_effect
  split <;> rfl

theorem start_demo_mode_brightness (st : LightBarController) (now : ℚ) :
    (st.start_demo_mode now).1.brightness_multiplier = st.brightness_multiplier := by
  unfold LightBarController.start_demo_mode
  split
  · rfl
  · simp [set_effect_brightness]

/-- Claim C2: the only author of the randomness argument in `update_effect` is
the live `calculate_randomness()`; the demo override is computed by
`calculate_randomness_override` but never consulted.  Concretely: mid-demo
(elapsed 15 s of 30 s) with idle metrics (cpu=0, ram=0, temp=50 °C), the
effect receives randomness 1.0 while the documented demo ramp would give 3.0. -/
theorem c2_demo_override_not_applied :
    LightBarController.update_effect_randomness
      ⟨"load_rainbow", true, 1, true, 0, some "system_pulse"⟩ 0 0 50 = some 1 ∧
    LightBarController.calculate_randomness_override
      ⟨"load_rainbow", true, 1, true, 0, some "system_pulse"⟩ 15 = some 3 ∧
    some (1 : ℚ) ≠ some (3 : ℚ) := by
  refine ⟨?_, ?_, by norm_num⟩
  · norm_num [LightBarController.update_effect_randomness,
      LightBarController.calculate_randomness, min_def]
  · norm_num [LightBarController.calculate_randomness_override,
      demo_mode_duration, min_def]

/-- Claim C3, counterexample: when the previous brightness is already 0, a
control tick with `enabled=false` does not issue `turn_off` (the hardware
clear is guarded by `brightness_multiplier > 0`), contradicting "a hardware
clear is issued ... regardless of the previous brightness value". -/
theorem c3_counterexample :
    (LightBarController.check_control_commands
      ⟨"system_pulse", true, 0, false, 0, none⟩ false
      ⟨false, "system_pulse", 100, false⟩ 0).2 = false := by
  decide

/-- Claim C3 (amended): whenever the control document of a control-check tick
has `enabled=false`, the effective brightness becomes 0 regardless of the
prior effect, prior (non-negative) brightness, or an in-flight fade; the
hardware clear (`turn_off`) is issued exactly when the prior brightness was
positive (it is skipped when the lights were already at 0). -/
theorem c3_disabled_forces_zero (st : LightBarController) (fading : Bool)
    (control : Control) (now : ℚ)
    (h : control.enabled = false) (hb : 0 ≤ st.brightness_multiplier) :
    (st.check_control_commands fading control now).1.brightness_multiplier = 0 ∧
    ((st.check_control_commands fading control now).2 = true ↔
      0 < st.brightness_multiplier) := by
  unfold LightBarController.check_control_commands
  rcases lt_or_eq_of_le hb with hpos | hzero
  · refine ⟨?_, ?_⟩
    · simp [h, hpos]
      split <;> simp [start_demo_mode_brightness]
    · simp [h, hpos]
  · refine ⟨?_, ?_⟩
    · simp [h, ← hzero]
      split <;> simp [start_demo_mode_brightness, ← hzero]
    · simp [h, ← hzero]

theorem c3_witness :
    (LightBarController.check_control_commands
      ⟨"system_pulse", true, 1/2, false, 0, none⟩ false
      ⟨false, "system_pulse", 100, false⟩ 0).1.brightness_multiplier = 0 ∧
    ((LightBarController.check_control_commands
      ⟨"system_pulse", true, 1/2, false, 0, none⟩ false
      ⟨false, "system_pulse", 100, false⟩ 0).2 = true ↔
      (0 : ℚ) < 1/2) :=
  c3_disabled_forces_zero ⟨"system_pulse", true, 1/2, false, 0, none⟩ false
    ⟨false, "system_pulse", 100, false⟩ 0 rfl (by norm_num)

/-- Claim C5: starting the demo at `t0` from a non-demo state whose current
effect is available, the effect active at `t0 + 6.5 s` is the second listed
demo effect (`load_rainbow`), and at `t0 + 31 s` the demo has ended with the
pre-demo effect restored as the current effect. -/
theorem c5_demo_timeline (st : LightBarController) (t0 : ℚ)
    (hd : st.demo_mode_active = false)
    (ha : available_effects.contains st.current_effect_name = true) :
    demo_mode_effects.getD 1 "" = "load_rainbow" ∧
    (st.start_demo_mode t0).2 = true ∧
    ((st.start_demo_mode t0).1.update_demo_mode (t0 + 13/2)).current_effect_name
      = "load_rainbow" ∧
    (((st.start_demo_mode t0).1.update_demo_mode (t0 + 13/2)).update_demo_mode
      (t0 + 31)).demo_mode_active = false ∧
    (((st.start_demo_mode t0).1.update_demo_mode (t0 + 13/2)).update_demo_mode
      (t0 + 31)).current_effect_name = st.current_effect_name := by
  have h1 : st.start_demo_mode t0 =
      ({ st with
          current_effect_name := "system_pulse"
          has_effect := true
          demo_mode_active := true
          demo_mode_start_time := t0
          demo_mode_previous_effect := some st.current_effect_name }, true) := by
    simp [LightBarController.start_demo_mode, hd, LightBarController.set_effect,
      demo_mode_effects, available_effects]
  have hfl : ⌊(13 : ℚ)/2 / 6⌋ = 1 := by
    apply Int.floor_eq_iff.mpr
    norm_num
  have h2 : ((st.start_demo_mode t0).1.update_demo_mode (t0 + 13/2)) =
      { st with
          current_effect_name := "load_rainbow"
          has_effect := true
          demo_mode_active := true
          demo_mode_start_time := t0
          demo_mode_previous_effect := some st.current_effect_name } := by
    rw [h1]
    simp only [LightBarController.update_demo_mode]
    norm_num [add_sub_cancel_left, demo_mode_duration, demo_mode_effects, pyInt,
      pyIndex, hfl, LightBarController.set_effect, available_effects]
    exact fun hcon => absurd hcon (by decide)
  have hmem : st.current_effect_name ∈ available_effects := by simpa using ha
  refine ⟨by decide, by rw [h1], by rw [h2], ?_, ?_⟩ <;>
  · rw [h2]
    simp only [LightBarController.update_demo_mode]
    norm_num [add_sub_cancel_left, demo_mode_duration,
      LightBarController.end_demo_mode, LightBarController.set_effect, ha, hmem]

theorem c5_witness :
    demo_mode_effects.getD 1 "" = "load_rainbow" ∧
    (LightBarController.start_demo_mode
      ⟨"thermal_gradient", true, 1, false, 0, none⟩ 5).2 = true ∧
    ((LightBarController.start_demo_mode
      ⟨"thermal_gradient", true, 1, false, 0, none⟩ 5).1.update_demo_mode
        (5 + 13/2)).current_effect_name = "load_rainbow" ∧
    (((LightBarController.start_demo_mode
      ⟨"thermal_gradient", true, 1, false, 0, none⟩ 5).1.update_demo_mode
        (5 + 13/2)).update_demo_mode (5 + 31)).demo_mode_active = false ∧
    (((LightBarController.start_demo_mode
      ⟨"thermal_gradient", true, 1, false, 0, none⟩ 5).1.update_demo_mode
        (5 + 13/2)).update_demo_mode (5 + 31)).current_effect_name
      = "thermal_gradient" :=
  c5_demo_timeline ⟨"thermal_gradient", true, 1, false, 0, none⟩ 5 rfl (by decide)

/-- Outcome of trying to read the shared telemetry state file in
`OLEDSync.check_oled_health`. -/
inductive FileRead where
  | missing : FileRead
  | unparseable : FileRead
  | doc : ℚ → FileRead
deriving DecidableEq, Repr

/-- State of `OLEDSync` (`lightbar/core/oled_sync.py`): the last recorded
health verdict (with the parsed document's timestamp), the last effective
check time, and the end of the recovery-flash window. -/
structure OLEDSync where
  last_health_status : Option (Bool × Option ℚ)
  last_check_time : ℚ
  oled_recovery_flash_until : ℚ
deriving DecidableEq, Repr

/-- `self.last_health_status is None or self.last_health_status[0]` — also the
`was_healthy` default used on the healthy path. -/
def OLEDSync.recorded_healthy (s : OLEDSync) : Bool :=
  match s.last_health_status with
  | none => true
  | some (b, _) => b

/-- Staleness threshold (`STALE_THRESHOLD`), seconds. -/
def STALE_THRESHOLD : ℚ := 5

/-- Embedding of `OLEDSync.check_oled_health`: rate-limited to one effective
check per 5 s (returning the cached verdict in between); a missing file or a
document older than 5 s yields unhealthy (updating the record only if it was
healthy or unset); an unparseable file yields unhealthy without touching the
record; a fresh document yields healthy and, when the record said unhealthy,
arms the 2-second recovery flash. -/
def OLEDSync.check_oled_health (s : OLEDSync) (now : ℚ) (file : FileRead) :
    OLEDSync × (Bool × Option ℚ) :=
  if now - s.last_check_time < 5 then
    (s, s.last_health_status.getD (true, none))
  else
    let s1 := { s with last_check_time := now }
    match file with
    | .missing =>
        let s2 := if s1.recorded_healthy then
            { s1 with last_health_status := some (false, none) }
          else s1
        (s2, (false, none))
    | .unparseable =>
        (s1, (false, none))
    | .doc timestamp =>
        let age := now - timestamp
        if age > STALE_THRESHOLD then
          let s2 := if s1.recorded_healthy then
              { s1 with last_health_status := some (false, some timestamp) }
            else s1
          (s2, (false, some timestamp))
        else
          let was_healthy := s1.recorded_healthy
          let s2 := if !was_healthy then
              { s1 with oled_recovery_flash_until := now + 2 }
            else s1
          ({ s2 with last_health_status := some (true, some timestamp) },
            (true, some timestamp))

/-- Embedding of `OLEDSync.is_showing_recovery_flash`. -/
def OLEDSync.is_showing_recovery_flash (s : OLEDSync) (now : ℚ) : Bool :=
  decide (now < s.oled_recovery_flash_until)

/-- Claim C8, counterexample: an unhealthy verdict caused by an unparseable
state file does not update the recorded health status, so the following
healthy check is not treated as a recovery: the verdicts go
unhealthy (t=20) → healthy (t=30) yet no recovery window is armed and
`is_showing_recovery_flash` is false immediately after the transition,
against the claim's "true for exactly the next 2 seconds". -/
theorem c8_counterexample :
    ((((OLEDSync.mk none 0 0).check_oled_health 10 (.doc 10)).1.check_oled_health
        20 .unparseable).2.1 = false) ∧
    (((((OLEDSync.mk none 0 0).check_oled_health 10 (.doc 10)).1.check_oled_health
        20 .unparseable).1.check_oled_health 30 (.doc 30)).2.1 = true) ∧
    (((((OLEDSync.mk none 0 0).check_oled_health 10 (.doc 10)).1.check_oled_health
        20 .unparseable).1.check_oled_health 30 (.doc 30)).1.is_showing_recovery_flash
        30 = false) := by
  have e1 : (OLEDSync.mk none 0 0).check_oled_health 10 (.doc 10) =
      (OLEDSync.mk (some (true, some 10)) 10 0, (true, some 10)) := by
    norm_num [OLEDSync.check_oled_health, OLEDSync.recorded_healthy, STALE_THRESHOLD]
  have e2 : (OLEDSync.mk (some (true, some 10)) 10 0).check_oled_health
      20 .unparseable = (OLEDSync.mk (some (true, some 10)) 20 0, (false, none)) := by
    norm_num [OLEDSync.check_oled_health, OLEDSync.recorded_healthy, STALE_THRESHOLD]
  have e3 : (OLEDSync.mk (some (true, some 10)) 20 0).check_oled_health
      30 (.doc 30) = (OLEDSync.mk (some (true, some 30)) 30 0, (true, some 30)) := by
    norm_num [OLEDSync.check_oled_health, OLEDSync.recorded_healthy, STALE_THRESHOLD]
  rw [e1, e2, e3]
  norm_num [OLEDSync.is_showing_recovery_flash]

/-- Claim C8 (amended): for an effective health check (the 5 s rate limit has
passed), the verdict on a parsed document with timestamp T is healthy iff
now − T ≤ 5, and missing or unparseable files give unhealthy; when the last
recorded health status is unhealthy (the record is updated by missing and
stale reads but not by unparseable reads) and a fresh document is read, the
recovery window is armed and `is_showing_recovery_flash` is true exactly for
times before now + 2 s; a healthy check from an already-healthy record leaves
the flash window untouched, so it expires on its own even while health stays
good. -/
theorem c8_health_and_recovery (s : OLEDSync) (now T : ℚ)
    (heff : 5 ≤ now - s.last_check_time) :
    ((s.check_oled_health now (.doc T)).2.1 = true ↔ now - T ≤ 5) ∧
    (s.check_oled_health now .missing).2.1 = false ∧
    (s.check_oled_health now .unparseable).2.1 = false ∧
    (∀ d, s.last_health_status = some (false, d) → now - T ≤ 5 →
      (s.check_oled_health now (.doc T)).1.oled_recovery_flash_until = now + 2 ∧
      (∀ u, (s.check_oled_health now (.doc T)).1.is_showing_recovery_flash u = true ↔
        u < now + 2)) ∧
    (∀ d, s.last_health_status = some (true, d) →
      (s.check_oled_health now (.doc T)).1.oled_recovery_flash_until =
        s.oled_recovery_flash_until) := by
  have hnot : ¬ (now - s.last_check_time < 5) := not_lt.mpr heff
  refine ⟨?_, ?_, ?_, ?_, ?_⟩
  · unfold OLEDSync.check_oled_health
    rw [if_neg hnot]
    dsimp only
    by_cases hage : now - T > STALE_THRESHOLD
    · rw [if_pos hage]
      exact iff_of_false (by simp) (not_le.mpr (by simpa [STALE_THRESHOLD] using hage))
    · rw [if_neg hage]
      exact iff_of_true rfl (le_of_not_lt (by simpa [STALE_THRESHOLD] using hage))
  · unfold OLEDSync.check_oled_health
    rw [if_neg hnot]
  · unfold OLEDSync.check_oled_health
    rw [if_neg hnot]
  · intro d hrec hfresh
    unfold OLEDSync.check_oled_health
    rw [if_neg hnot]
    dsimp only
    have hage : ¬ (now - T > STALE_THRESHOLD) := by
      simp only [STALE_THRESHOLD]
      exact not_lt.mpr hfresh
    rw [if_neg hage]
    simp [OLEDSync.recorded_healthy, hrec, OLEDSync.is_showing_recovery_flash]
  · intro d hrec
    unfold OLEDSync.check_oled_health
    rw [if_neg hnot]
    dsimp only
    by_cases hage : now - T > STALE_THRESHOLD
    · rw [if_pos hage]
      split <;> rfl
    · rw [if_neg hage]
      simp [OLEDSync.recorded_healthy, hrec]

theorem c8_witness :
    (((OLEDSync.mk (some (false, none)) 0 0).check_oled_health 10
        (.doc 10)).2.1 = true ↔ (10 : ℚ) - 10 ≤ 5) ∧
    ((OLEDSync.mk (some (false, none)) 0 0).check_oled_health 10
        (.doc 10)).1.oled_recovery_flash_until = 10 + 2 ∧
    (((OLEDSync.mk (some (false, none)) 0 0).check_oled_health 10
        (.doc 10)).1.is_showing_recovery_flash 11 = true ↔ (11 : ℚ) < 10 + 2) :=
  have h := c8_health_and_recovery (OLEDSync.mk (some (false, none)) 0 0) 10 10
    (by norm_num)
  have harm := h.2.2.2.1 none rfl (by norm_num)
  ⟨h.1, harm.1, harm.2 11⟩

/-- State of `FadeController` (`lightbar/core/scheduler.py`), over `ℝ` since
the easing uses the real sine. -/
structure FadeController where
  fading : Bool
  fade_start : ℝ
  fade_duration : ℝ
  fade_from : ℝ
  fade_to : ℝ

/-- Embedding of `FadeController.start_fade`: unconditionally (no validation
of `duration`) mark the controller fading and record origin time, duration and
endpoints. -/
def FadeController.start_fade (c : FadeController)
    (from_brightness to_brightness duration : ℝ) (now : ℝ) : FadeController :=
  { c with
      fading := true
      fade_start := now
      fade_duration := duration
      fade_from := from_brightness
      fade_to := to_brightness }

/-- Embedding of `FadeController.update`: `none` when idle; otherwise progress
is `elapsed / fade_duration` clamped above at 1 (the division raises
`ZeroDivisionError` when `fade_duration = 0`, modelled as `.error ()`), the
brightness interpolates along the sine easing, and once progress reaches 1 the
session is ended and the exact target returned once more. -/
noncomputable def FadeController.update (c : FadeController) (now : ℝ) :
    Except Unit (FadeController × Option ℝ) :=
  if c.fading = false then .ok (c, none)
  else if c.fade_duration = 0 then .error ()
  else
    let elapsed := now - c.fade_start
    let progress := min 1 (elapsed / c.fade_duration)
    let smooth_progress := (Real.sin ((progress - 0.5) * Real.pi) + 1) / 2
    let current_brightness :=
      c.fade_from + (c.fade_to - c.fade_from) * smooth_progress
    if 1 ≤ progress then .ok ({ c with fading := false }, some c.fade_to)
    else .ok (c, some current_brightness)

/-- Embedding of `FadeController.is_fading`. -/
def FadeController.is_fading (c : FadeController) : Bool := c.fading

/-- Claim C7: for a fade session with positive duration, any `update()` call
at which `elapsed / duration` has reached 1 returns exactly the requested
target `fade_to` and ends the session; from then on `is_fading()` is false and
every further `update()` returns no brightness. -/
theorem c7_fade_completion (c : FadeController) (now : ℝ)
    (hf : c.fading = true) (hd : 0 < c.fade_duration)
    (h1 : 1 ≤ (now - c.fade_start) / c.fade_duration) :
    c.update now = .ok ({ c with fading := false }, some c.fade_to) ∧
    ({ c with fading := false } : FadeController).is_fading = false ∧
    ∀ now2 : ℝ, ({ c with fading := false } : FadeController).update now2 =
      .ok ({ c with fading := false }, none) := by
  refine ⟨?_, rfl, ?_⟩
  · unfold FadeController.update
    rw [if_neg (by simp [hf]), if_neg hd.ne']
    dsimp only
    rw [if_pos (le_min le_rfl h1)]
  · intro now2
    unfold FadeController.update
    rw [if_pos rfl]

theorem c7_witness :
    FadeController.update ⟨true, 0, 2, 0, 1⟩ 2 =
      .ok (⟨false, 0, 2, 0, 1⟩, some 1) :=
  (c7_fade_completion ⟨true, 0, 2, 0, 1⟩ 2 rfl (by norm_num) (by norm_num)).1

/-- Claim C9: `start_fade` performs no validation, so a session with
`duration = 0` is accepted; under the precondition `fade_duration > 0`,
`update()` is total (never hits the division error) and every brightness it
returns lies in the closed interval between `fade_from` and `fade_to`
(the sine easing stays within `[0,1]`); but with `fade_duration = 0` a fading
session makes `update()` reach the division-by-zero branch. -/
theorem c9_fade_safety :
    (∀ (c : FadeController) (f t now : ℝ),
      (c.start_fade f t 0 now).fading = true ∧
      (c.start_fade f t 0 now).fade_duration = 0) ∧
    (∀ (c : FadeController) (now : ℝ), 0 < c.fade_duration →
      ∃ r, c.update now = .ok r ∧
        ∀ b, r.2 = some b →
          min c.fade_from c.fade_to ≤ b ∧ b ≤ max c.fade_from c.fade_to) ∧
    (∀ (c : FadeController) (now : ℝ), c.fading = true → c.fade_duration = 0 →
      c.update now = .error ()) := by
  refine ⟨fun c f t now => ⟨rfl, rfl⟩, ?_, ?_⟩
  · intro c now hd
    unfold FadeController.update
    by_cases hf : c.fading = false
    · rw [if_pos hf]
      exact ⟨(c, none), rfl, by intro b hb; cases hb⟩
    · rw [if_neg hf, if_neg hd.ne']
      dsimp only
      set p := min 1 ((now - c.fade_start) / c.fade_duration) with hp
      set sm := (Real.sin ((p - 0.5) * Real.pi) + 1) / 2 with hsm
      have hsm0 : 0 ≤ sm := by
        rw [hsm]
        nlinarith [Real.neg_one_le_sin ((p - 0.5) * Real.pi)]
      have hsm1 : sm ≤ 1 := by
        rw [hsm]
        nlinarith [Real.sin_le_one ((p - 0.5) * Real.pi)]
      by_cases h1 : 1 ≤ p
      · rw [if_pos h1]
        refine ⟨_, rfl, ?_⟩
        intro b hb
        cases hb
        exact ⟨min_le_right _ _, le_max_right _ _⟩
      · rw [if_neg h1]
        refine ⟨_, rfl, ?_⟩
        intro b hb
        cases hb
        rcases le_total c.fade_from c.fade_to with hle | hle
        · rw [min_eq_left hle, max_eq_right hle]
          constructor <;> nlinarith
        · rw [min_eq_right hle, max_eq_left hle]
          constructor <;> nlinarith
  · intro c now hf hd
    unfold FadeController.update
    rw [if_neg (by simp [hf]), if_pos hd]

theorem c9_witness :
    ((FadeController.start_fade ⟨false, 0, 0, 0, 0⟩ 0 1 0 3).fading = true ∧
      (FadeController.start_fade ⟨false, 0, 0, 0, 0⟩ 0 1 0 3).fade_duration = 0) ∧
    (∃ r, FadeController.update ⟨true, 0, 1, 0, 1⟩ 1 = .ok r ∧
      ∀ b, r.2 = some b → min (0 : ℝ) 1 ≤ b ∧ b ≤ max (0 : ℝ) 1) ∧
    FadeController.update ⟨true, 0, 0, 0, 1⟩ 5 = .error () :=
  ⟨c9_fade_safety.1 ⟨false, 0, 0, 0, 0⟩ 0 1 3,
   c9_fade_safety.2.1 ⟨true, 0, 1, 0, 1⟩ 1 (by norm_num),
   c9_fade_safety.2.2 ⟨true, 0, 0, 0, 1⟩ 5 rfl rfl⟩

/-- Embedding of `BrightnessWrapper.set_RGB` (`lightbar/core/brightness_wrapper.py`):
each channel is multiplied by the controller's `brightness_multiplier` and
truncated with `int()` before being forwarded to the hardware; the returned
quadruple is the forwarded call. -/
def BrightnessWrapper.set_RGB (brightness_multiplier : ℚ)
    (led_id : ℤ) (red green blue : ℚ) : ℤ × ℤ × ℤ × ℤ :=
  (led_id, pyInt (red * brightness_multiplier),
    pyInt (green * brightness_multiplier), pyInt (blue * brightness_multiplier))

/-- Embedding of `BrightnessWrapper.set_all_RGB`: same scaling, forwarded to
`bot.set_all_RGB`. -/
def BrightnessWrapper.set_all_RGB (brightness_multiplier : ℚ)
    (red green blue : ℚ) : ℤ × ℤ × ℤ :=
  (pyInt (red * brightness_multiplier), pyInt (green * brightness_multiplier),
    pyInt (blue * brightness_multiplier))

/-- Claim C10: every `set_RGB` / `set_all_RGB` routed through the wrapper
forwards each channel multiplied by the current `brightness_multiplier` (then
`int()`-truncated), and with `brightness_multiplier = 0` every forwarded
channel is exactly 0, for every input colour. -/
theorem c10_brightness_wrapper_scales (brightness : ℚ) (led_id : ℤ)
    (red green blue : ℚ) :
    BrightnessWrapper.set_RGB brightness led_id red green blue =
      (led_id, pyInt (red * brightness), pyInt (green * brightness),
        pyInt (blue * brightness)) ∧
    BrightnessWrapper.set_all_RGB brightness red green blue =
      (pyInt (red * brightness), pyInt (green * brightness),
        pyInt (blue * brightness)) ∧
    BrightnessWrapper.set_RGB 0 led_id red green blue = (led_id, 0, 0, 0) ∧
    BrightnessWrapper.set_all_RGB 0 red green blue = (0, 0, 0) := by
  refine ⟨rfl, rfl, ?_, ?_⟩ <;>
    simp [BrightnessWrapper.set_RGB, BrightnessWrapper.set_all_RGB, pyInt]
